import Mathlib

/-!
Shallow embedding of `src/medical_analyzer.py` (class `MedicalAnalyzer`) from the
Eco_Scan repository, together with theorems settling the specification claims
about it.

Modelling conventions:
* Python strings are Lean `String`s; character-level work is done on `List Char`.
* Case folding (`str.lower`, `re.IGNORECASE`) is modelled with `Char.toLower`,
  which folds ASCII letters; all literal phrases and headings in the source are
  ASCII.
* Python whitespace (`str.strip`, regex `\s`) is modelled by the set of
  codepoints Python treats as whitespace in text strings.
* The two regular expressions of `parse_llm_analysis` are embedded as
  special-purpose matchers with Python `re` semantics (leftmost match, lazy
  groups, lookahead, `re.DOTALL`, and `$` matching at end of text or before a
  final newline).
* Network effects (`requests.get`/`requests.post`) are modelled by explicit
  outcome values (`TagsOutcome`, `GenOutcome`) supplied through an environment;
  `analyze_symptoms` additionally reports which endpoints it consulted.
-/

/-- The codepoints Python treats as whitespace in `str.strip`, `str.isspace`
and the regex class `\s` (text patterns). -/
def pythonWhitespace : List Char :=
  [' ', '\t', '\n', '\r', '\x0b', '\x0c',
   '\x1c', '\x1d', '\x1e', '\x1f', '\x85', '\xa0',
   '\u1680', '\u2000', '\u2001', '\u2002', '\u2003', '\u2004', '\u2005',
   '\u2006', '\u2007', '\u2008', '\u2009', '\u200a',
   '\u2028', '\u2029', '\u202f', '\u205f', '\u3000']

/-- Python whitespace test for a single character. -/
def pyIsSpace (c : Char) : Bool := decide (c ∈ pythonWhitespace)

/-- Python `str.strip()` on a character list: remove leading and trailing
whitespace. -/
def pyStripL (l : List Char) : List Char :=
  ((l.dropWhile pyIsSpace).reverse.dropWhile pyIsSpace).reverse

/-- Python `str.strip()` on strings. -/
def pyStrip (s : String) : String := ⟨pyStripL s.toList⟩

/-- Python `str.lower()` (ASCII case folding). -/
def pyLower (s : String) : String := ⟨s.toList.map Char.toLower⟩

/-- Python `needle in hay` substring containment. -/
def pyIn (needle hay : String) : Bool := decide (needle.toList <:+: hay.toList)

/-- Python `str.split('\n')` on a character list. -/
def splitNl : List Char → List (List Char)
  | [] => [[]]
  | '\n' :: rest => [] :: splitNl rest
  | c :: rest =>
    match splitNl rest with
    | h :: t => (c :: h) :: t
    | [] => [[c]]

/-- Case-insensitive match of `needle` against the start of `hay`; on success
returns the remainder of `hay` after the matched text. -/
def dropMatchCI : List Char → List Char → Option (List Char)
  | [], hay => some hay
  | _ :: _, [] => none
  | n :: ns, h :: hs =>
    if n.toLower = h.toLower then dropMatchCI ns hs else none

/-- Leftmost case-insensitive occurrence of `needle` in `hay`; on success
returns the remainder of `hay` after the first occurrence (the semantics of
`re.search` for a literal pattern under `re.IGNORECASE`). -/
def searchCI (needle : List Char) : List Char → Option (List Char)
  | [] => dropMatchCI needle []
  | c :: rest =>
    match dropMatchCI needle (c :: rest) with
    | some rem => some rem
    | none => searchCI needle rest

/-- Lazy capture `(.*?)(?=###|$)` under `re.DOTALL`: the shortest prefix whose
remainder starts with `###`, is empty, or is a single final newline. -/
def lazyUpToHeading : List Char → List Char
  | [] => []
  | c :: rest =>
    match c :: rest with
    | '#' :: '#' :: '#' :: _ => []
    | ['\n'] => []
    | _ => c :: lazyUpToHeading rest

/-- Embeds `re.search(r'<heading>\s*(.*?)(?=###|$)', resp, re.IGNORECASE |
re.DOTALL)` from `parse_llm_analysis`: find the heading literal
case-insensitively, skip following whitespace greedily, and capture lazily up
to the next `###` or the end of the text. Returns the raw capture (before
`.strip()`), or `none` when the heading does not occur. -/
def extractSection (heading : String) (resp : List Char) : Option (List Char) :=
  match searchCI heading.toList resp with
  | none => none
  | some rest => some (lazyUpToHeading (rest.dropWhile pyIsSpace))

/-- The zero-width lookahead `(?=\d+\.|$)` of the differential-diagnosis item
pattern: a run of one or more digits followed by a dot, or end of text, or a
single final newline. -/
def diagLookahead (l : List Char) : Bool :=
  match l with
  | [] => true
  | ['\n'] => true
  | _ =>
    let ds := l.takeWhile Char.isDigit
    !ds.isEmpty &&
      (match l.drop ds.length with
       | '.' :: _ => true
       | _ => false)

/-- Lazy capture `(.*?)(?=\d+\.|$)`: the shortest prefix whose remainder
satisfies `diagLookahead`; returns the capture and the remainder. -/
def lazyUpToDiag : List Char → List Char × List Char
  | [] => ([], [])
  | c :: rest =>
    if diagLookahead (c :: rest) then ([], c :: rest)
    else
      let p := lazyUpToDiag rest
      (c :: p.1, p.2)

/-- The lazy condition split for the first group of the item pattern,
`(.*?)\*\*\s*-`: the shortest prefix whose remainder starts with `**` followed
(after greedy whitespace) by `-`. Returns the captured group and the remainder
after the `-`. -/
def condSplit : List Char → Option (List Char × List Char)
  | [] => none
  | c :: rest =>
    let hit : Option (List Char) :=
      match c :: rest with
      | '*' :: '*' :: tail =>
        match tail.dropWhile pyIsSpace with
        | '-' :: after => some after
        | _ => none
      | _ => none
    match hit with
    | some after => some ([], after)
    | none =>
      match condSplit rest with
      | some p => some (c :: p.1, p.2)
      | none => none

/-- One attempt to match the item pattern
`\d+\.\s*\*\*(.*?)\*\*\s*-\s*(.*?)(?=\d+\.|$)` (with `re.DOTALL`) at the start
of `l`. On success returns the two captured groups and the remainder of the
text after the match. -/
def matchDiagAt (l : List Char) : Option ((List Char × List Char) × List Char) :=
  let ds := l.takeWhile Char.isDigit
  if ds.isEmpty then none
  else
    match l.drop ds.length with
    | '.' :: rest1 =>
      match rest1.dropWhile pyIsSpace with
      | '*' :: '*' :: rest3 =>
        match condSplit rest3 with
        | none => none
        | some (g1, rest4) =>
          let p := lazyUpToDiag (rest4.dropWhile pyIsSpace)
          some ((g1, p.1), p.2)
      | _ => none
    | _ => none

/-- Scanning loop of `re.findall` for the item pattern: try the pattern at each
position from left to right, and after a match continue at the match end.
`fuel` bounds the recursion; every step consumes at least one character, so
`length + 1` fuel is always enough. -/
def findallDiagAux : Nat → List Char → List (List Char × List Char)
  | 0, _ => []
  | _, [] => []
  | fuel + 1, c :: rest =>
    match matchDiagAt (c :: rest) with
    | some (g, rem) => g :: findallDiagAux fuel rem
    | none => findallDiagAux fuel rest

/-- Embeds `re.findall(r'\d+\.\s*\*\*(.*?)\*\*\s*-\s*(.*?)(?=\d+\.|$)',
content, re.DOTALL)` from `parse_llm_analysis`. -/
def findallDiag (content : List Char) : List (List Char × List Char) :=
  findallDiagAux (content.length + 1) content

/-- One differential-diagnosis entry (`{'condition': ..., 'rationale': ...}`). -/
structure DiagEntry where
  condition : String
  rationale : String
deriving DecidableEq, Repr

/-- The filter of the fallback parse in `parse_llm_analysis`
(`if line.strip() and ('**' in line or line[0].isdigit())`): the raw line must
strip to a non-empty string and contain `**` or start with a digit. -/
def fallbackKeep (line : List Char) : Bool :=
  !(pyStripL line).isEmpty &&
    (decide (['*', '*'] <:+: line) ||
      (match line with
       | c :: _ => c.isDigit
       | [] => false))

/-- Embeds the differential-diagnosis list parsing of `parse_llm_analysis`
(lines 197-201): first the numbered-item pattern, and when it yields no match,
the line-based fallback truncated to five entries. `content` is the stripped
section capture. -/
def parseDifferential (content : List Char) : List DiagEntry :=
  let diagnoses := findallDiag content
  let primary := diagnoses.map fun d => DiagEntry.mk ⟨pyStripL d.1⟩ ⟨pyStripL d.2⟩
  if primary.isEmpty then
    let lines := ((splitNl content).filter fallbackKeep).map pyStripL
    (lines.take 5).map fun line => DiagEntry.mk ⟨line⟩ ""
  else primary

/-- Embeds the urgency-level classification of `parse_llm_analysis`
(lines 206-214) from the extracted `urgency_assessment` text. -/
def classifyUrgency (urgency_assessment : String) : String :=
  let urgency_text := pyLower urgency_assessment
  if pyIn "emergency" urgency_text then "emergency"
  else if pyIn "urgent" urgency_text && !pyIn "semi" urgency_text then "urgent"
  else if pyIn "semi-urgent" urgency_text then "semi-urgent"
  else "routine"

/-- The dictionaries `MedicalAnalyzer` returns, modelled as a record whose
fields are `none` exactly when the corresponding key is absent from the
Python dictionary. -/
structure PyRecord where
  error : Option String := none
  technical_details : Option String := none
  technical_error : Option String := none
  urgency_level : Option String := none
  symptom_analysis : Option String := none
  differential_diagnosis : Option (List DiagEntry) := none
  urgency_assessment : Option String := none
  immediate_recommendations : Option String := none
  red_flags : Option String := none
  self_care : Option String := none
  follow_up : Option String := none
  full_llm_response : Option String := none
  ai_generated : Option Bool := none
  emergency_override : Option Bool := none
  available_models : Option (List String) := none
  timestamp : Option String := none
  language : Option String := none
  model_used : Option String := none
  disclaimer : Option String := none
  privacy_note : Option String := none
  input_symptoms : Option String := none
  patient_age : Option String := none
  patient_gender : Option String := none
deriving DecidableEq, Repr

/-- The differential-diagnosis list of `parse_llm_analysis`, from the raw
response: the stripped capture of the `### DIFFERENTIAL DIAGNOSIS` section when
the heading occurs, otherwise the empty text. -/
def diffContent (llm_response : String) : List Char :=
  match extractSection "### DIFFERENTIAL DIAGNOSIS" llm_response.toList with
  | some cap => pyStripL cap
  | none => []

/-- Embeds `MedicalAnalyzer.parse_llm_analysis` (lines 163-216): extract the
seven sections (an absent heading leaves the initial default, the empty string
or empty list), parse the differential-diagnosis list, and classify the
urgency level from the extracted urgency text. -/
def parse_llm_analysis (llm_response : String) : PyRecord :=
  let r := llm_response.toList
  let sect (heading : String) : String :=
    match extractSection heading r with
    | some cap => ⟨pyStripL cap⟩
    | none => ""
  let differential :=
    match extractSection "### DIFFERENTIAL DIAGNOSIS" r with
    | some cap => parseDifferential (pyStripL cap)
    | none => []
  let urgency_assessment := sect "### URGENCY ASSESSMENT"
  { symptom_analysis := some (sect "### SYMPTOM ANALYSIS")
    differential_diagnosis := some differential
    urgency_assessment := some urgency_assessment
    urgency_level := some (classifyUrgency urgency_assessment)
    immediate_recommendations := some (sect "### IMMEDIATE RECOMMENDATIONS")
    red_flags := some (sect "### RED FLAGS TO WATCH FOR")
    self_care := some (sect "### SELF-CARE MEASURES")
    follow_up := some (sect "### FOLLOW-UP GUIDANCE")
    full_llm_response := some llm_response
    ai_generated := some true }

/-- The record the `except` handler of `parse_llm_analysis` returns
(lines 220-225) when section extraction raises. -/
def parse_error_record (llm_response : String) : PyRecord :=
  { error := some "Failed to parse AI medical analysis"
    full_llm_response := some llm_response
    urgency_level := some "urgent"
    ai_generated := some true }

/-- The fixed absolute-emergency phrase list set in `MedicalAnalyzer.__init__`. -/
def absolute_emergencies : List String :=
  ["not breathing", "no pulse", "unconscious", "unresponsive",
   "major bleeding", "severe burns over large area", "overdose confirmed",
   "active seizure", "choking right now", "severe allergic reaction with throat closing"]

/-- The supported language codes (keys of `self.supported_languages`). -/
def supported_language_codes : List String :=
  ["en", "es", "fr", "pt", "ar", "hi", "zh", "ru", "sw"]

/-- The disclaimer string set in `MedicalAnalyzer.__init__`. -/
def disclaimerText : String :=
  "\n        🏥 IMPORTANT: This AI provides health information to help you understand symptoms.\n        It is not a medical diagnosis. For health concerns, consult qualified healthcare providers.\n        In emergencies, contact your local emergency services immediately.\n        "

/-- Embeds `MedicalAnalyzer.check_absolute_emergency` (lines 60-63): any
absolute-emergency phrase occurs in the lower-cased input. -/
def check_absolute_emergency (symptoms : String) : Bool :=
  absolute_emergencies.any fun e => pyIn e (pyLower symptoms)

/-- The configuration of a `MedicalAnalyzer` instance that is observable in the
modelled behaviour (`self.model_name`; the URL and sampling parameters only
feed the network layer, which is abstracted into outcome values). -/
structure MedicalAnalyzer where
  model_name : String
deriving DecidableEq, Repr

/-- Outcome of the availability probe `GET {url}/api/tags`: a 200 response with
the installed model names (each entry's `name` field, the empty string when the
field is missing), a non-200 status, or a raised exception. -/
inductive TagsOutcome where
  | ok (models : List String)
  | httpStatus (code : Nat)
  | exn
deriving DecidableEq, Repr

/-- The dictionary `check_model_status` returns; `available_models` is `none`
when the key is absent (the non-200 and exception branches). -/
structure StatusResult where
  status : String
  model_available : Bool
  available_models : Option (List String) := none
deriving DecidableEq, Repr

/-- Embeds `MedicalAnalyzer.check_model_status` (lines 41-58). -/
def check_model_status (a : MedicalAnalyzer) (tags : TagsOutcome) : StatusResult :=
  match tags with
  | .ok models =>
    let model_available := models.any fun name => pyIn a.model_name name
    { status := if model_available then "ready" else "model_not_found"
      model_available := model_available
      available_models := some (models.filter fun name => pyIn "gpt-oss" name) }
  | .httpStatus _ => { status := "ollama_not_running", model_available := false }
  | .exn => { status := "connection_error", model_available := false }

/-- Outcome of the generation call `POST {url}/api/generate`: a 200 response
with the optional `response` field of its JSON body, a non-200 status, a
timeout, or another raised exception with its message. -/
inductive GenOutcome where
  | ok (response : Option String)
  | httpStatus (code : Nat)
  | timeout
  | exn (msg : String)
deriving DecidableEq, Repr

/-- Embeds `MedicalAnalyzer.query_llm_for_analysis` (lines 126-161): the text
returned for each outcome of the generation call. The prompt only feeds the
abstracted network layer. -/
def query_llm_for_analysis (gen : GenOutcome) (_prompt : String) : String :=
  match gen with
  | .ok response => response.getD "Unable to generate medical analysis"
  | .httpStatus code => "Error connecting to medical AI: HTTP " ++ toString code
  | .timeout => "Medical analysis timed out. Please try again with a shorter description."
  | .exn msg => "Error during medical analysis: " ++ msg

/-- Embeds `MedicalAnalyzer.create_comprehensive_prompt` (lines 65-124). -/
def create_comprehensive_prompt (symptoms age gender _language : String) : String :=
  "You are an experienced medical AI assistant with expertise in symptom analysis and triage. You will analyze the following patient presentation and provide comprehensive medical guidance.\n\nPATIENT PRESENTATION:\nAge: "
  ++ (if age = "" then "Not specified" else age)
  ++ "\nGender: " ++ (if gender = "" then "Not specified" else gender)
  ++ "\nChief Complaint and Symptoms: " ++ symptoms
  ++ "\n\nPlease analyze this case thoroughly and provide your assessment in the following structured format:\n\n## CLINICAL ASSESSMENT\n\n### SYMPTOM ANALYSIS\nProvide your clinical interpretation of the presented symptoms, including:\n- Primary symptoms and their characteristics\n- Associated symptoms and their significance\n- Symptom pattern analysis (onset, duration, progression, triggers)\n- Review of systems implications\n\n### DIFFERENTIAL DIAGNOSIS\nList your top 4-5 differential diagnoses in order of likelihood:\n1. **[Most Likely Condition]** - Brief rationale\n2. **[Second Most Likely]** - Brief rationale  \n3. **[Third Possibility]** - Brief rationale\n4. **[Fourth Possibility]** - Brief rationale\n5. **[Less Likely but Important]** - Brief rationale\n\n### URGENCY ASSESSMENT\nBased on your medical knowledge, classify this case:\n- **EMERGENCY** (Life-threatening, needs immediate care within minutes)\n- **URGENT** (Serious condition, needs care within hours)\n- **SEMI-URGENT** (Concerning symptoms, needs care within days)\n- **ROUTINE** (Mild symptoms, can schedule regular appointment)\n\nExplain your urgency classification with medical reasoning.\n\n### IMMEDIATE RECOMMENDATIONS\nWhat should the patient do right now based on your assessment?\n\n### RED FLAGS TO WATCH FOR\nWhat warning signs should prompt immediate medical attention?\n\n### SELF-CARE MEASURES\nWhat safe measures can help manage symptoms? (Only if appropriate for the condition)\n\n### FOLLOW-UP GUIDANCE\nWhen and how should the patient seek professional medical care?\n\n## IMPORTANT NOTES\n- Base your assessment on established medical knowledge and clinical reasoning\n- Consider patient demographics (age/gender) in your differential diagnosis\n- Be thorough but practical in your recommendations\n- If you identify any emergency conditions, clearly state this upfront\n- Acknowledge diagnostic limitations without direct examination\n\nPlease provide your complete medical assessment now."

/-- Embeds `MedicalAnalyzer.create_emergency_override` (lines 227-242). -/
def create_emergency_override (symptoms : String) : PyRecord :=
  { emergency_override := some true
    urgency_level := some "emergency"
    symptom_analysis := some ("MEDICAL EMERGENCY DETECTED: " ++ symptoms)
    differential_diagnosis :=
      some [DiagEntry.mk "Life-threatening emergency" "Immediate intervention required"]
    immediate_recommendations :=
      some "🚨 CALL EMERGENCY SERVICES IMMEDIATELY (911/112/999). Do not delay."
    red_flags := some "You are experiencing a medical emergency."
    self_care := some "Do not attempt self-treatment. Call emergency services now."
    follow_up := some "Emergency medical care required immediately."
    urgency_assessment :=
      some "EMERGENCY - Life-threatening condition requiring immediate medical intervention"
    ai_generated := some false }

/-- The environment one call of `analyze_symptoms` runs in: the outcomes the
two endpoints would produce and the current timestamp. -/
structure AnalyzeEnv where
  tags : TagsOutcome
  gen : GenOutcome
  now : String
deriving DecidableEq, Repr

/-- Result of `analyze_symptoms`, together with which endpoints were consulted
on the taken path. -/
structure AnalyzeOut where
  record : PyRecord
  probeCalled : Bool
  generateCalled : Bool
deriving DecidableEq, Repr

/-- The metadata merge of `analyze_symptoms` (lines 286-295),
`analysis.update({...})`. -/
def updateWithMetadata (a : MedicalAnalyzer) (env : AnalyzeEnv)
    (symptoms age gender lang : String) (r : PyRecord) : PyRecord :=
  { r with
    timestamp := some env.now
    language := some lang
    model_used := some a.model_name
    disclaimer := some disclaimerText
    privacy_note := some "Complete privacy - all analysis performed locally on your device"
    input_symptoms := some symptoms
    patient_age := some age
    patient_gender := some gender }

/-- The record the outer `except` handler of `analyze_symptoms` returns
(lines 299-306). -/
def analyze_exception_record (msg : String) : PyRecord :=
  { error := some "Medical analysis system error"
    urgency_level := some "urgent"
    immediate_recommendations :=
      some "Due to system error, please consult with a healthcare provider about your symptoms."
    technical_error := some msg }

/-- Embeds `MedicalAnalyzer.analyze_symptoms` (lines 244-297): input
validation, language normalisation, the absolute-emergency override, the
availability probe, the generation call with its text-based error check, the
response parse, and the metadata merge. -/
def analyze_symptoms (a : MedicalAnalyzer) (env : AnalyzeEnv)
    (symptoms age gender language : String) : AnalyzeOut :=
  if pyStrip symptoms = "" then
    { record := { error := some "Please describe your symptoms to receive medical guidance." }
      probeCalled := false, generateCalled := false }
  else
    let lang := if language ∈ supported_language_codes then language else "en"
    if check_absolute_emergency symptoms then
      { record := updateWithMetadata a env symptoms age gender lang
          (create_emergency_override symptoms)
        probeCalled := false, generateCalled := false }
    else
      let model_status := check_model_status a env.tags
      if model_status.status ≠ "ready" then
        { record :=
            { error := some ("Medical AI service unavailable (" ++ model_status.status
                ++ "). Please consult a healthcare provider.")
              available_models := some (model_status.available_models.getD [])
              urgency_level := some "urgent"
              immediate_recommendations :=
                some "Since AI analysis is unavailable, please consult with a healthcare provider about your symptoms." }
          probeCalled := true, generateCalled := false }
      else
        let prompt := create_comprehensive_prompt symptoms age gender lang
        let llm_response := query_llm_for_analysis env.gen prompt
        if pyIn "Error" llm_response || pyIn "timed out" llm_response then
          { record :=
              { error := some "Unable to complete medical analysis"
                technical_details := some llm_response
                urgency_level := some "urgent"
                immediate_recommendations :=
                  some "Please consult with a healthcare provider about your symptoms." }
            probeCalled := true, generateCalled := true }
        else
          { record := updateWithMetadata a env symptoms age gender lang
              (parse_llm_analysis llm_response)
            probeCalled := true, generateCalled := true }

/-! Supporting lemmas. -/

/-- Lower-casing fixes every whitespace character (case folding only moves
letters, and no letter is whitespace). -/
theorem toLower_of_pyIsSpace {c : Char} (h : pyIsSpace c = true) : c.toLower = c := by
  have hmem : c ∈ pythonWhitespace := of_decide_eq_true h
  fin_cases hmem <;> decide

/-- A list holding a non-whitespace character does not strip to the empty
list. -/
theorem pyStripL_ne_nil {l : List Char} {c : Char}
    (hc : c ∈ l) (hns : pyIsSpace c = false) : pyStripL l ≠ [] := by
  intro h
  unfold pyStripL at h
  rw [List.reverse_eq_nil_iff, List.dropWhile_eq_nil_iff] at h
  have hcd : c ∈ l.dropWhile pyIsSpace := by
    rw [← List.takeWhile_append_dropWhile (p := pyIsSpace) (l := l)] at hc
    rcases List.mem_append.mp hc with h1 | h2
    · have := List.mem_takeWhile_imp h1
      rw [hns] at this
      exact Bool.noConfusion this
    · exact h2
  have := h c (List.mem_reverse.mpr hcd)
  rw [hns] at this
  exact Bool.noConfusion this

/-- A string containing (case-insensitively) a phrase with a non-whitespace
character does not strip to the empty string. -/
theorem pyStrip_ne_empty_of_pyIn {p s : String}
    (hp : ∃ c ∈ p.toList, pyIsSpace c = false)
    (h : pyIn p (pyLower s) = true) : pyStrip s ≠ "" := by
  obtain ⟨c₀, hc₀, hns₀⟩ := hp
  have hinf : p.toList <:+: (pyLower s).toList := of_decide_eq_true h
  obtain ⟨u, v, huv⟩ := hinf
  have hmem : c₀ ∈ s.toList.map Char.toLower := by
    have : c₀ ∈ u ++ (p.toList ++ v) := by
      exact List.mem_append.mpr (Or.inr (List.mem_append.mpr (Or.inl hc₀)))
    rw [← List.append_assoc, huv] at this
    exact this
  obtain ⟨c, hcs, hlow⟩ := List.mem_map.mp hmem
  have hcns : pyIsSpace c = false := by
    cases hsp : pyIsSpace c with
    | false => rfl
    | true =>
      exfalso
      rw [toLower_of_pyIsSpace hsp] at hlow
      rw [hlow] at hsp
      rw [hsp] at hns₀
      exact Bool.noConfusion hns₀
  intro heq
  exact pyStripL_ne_nil hcs hcns (congrArg String.data heq)

/-- Every absolute-emergency phrase holds a non-whitespace character. -/
theorem emergencies_have_nonspace :
    ∀ p ∈ absolute_emergencies, ∃ c ∈ p.toList, pyIsSpace c = false := by decide

/-- The modelled generation call yields the same text whatever the prompt is:
the text is determined by the network outcome. -/
theorem query_llm_prompt_irrel (gen : GenOutcome) (p q : String) :
    query_llm_for_analysis gen p = query_llm_for_analysis gen q := by
  cases gen <;> rfl

/-! Claim theorems. -/

/-- C1: for every input string containing a phrase of the fixed
absolute-emergency list as a case-insensitive substring, `analyze_symptoms`
returns a record with `urgency_level = "emergency"` and
`ai_generated = false`, and consults neither the model-availability probe nor
the generation endpoint. -/
theorem c1_emergency_override_bypasses_backend
    (a : MedicalAnalyzer) (env : AnalyzeEnv) (symptoms age gender language : String)
    (h : ∃ p ∈ absolute_emergencies, pyIn p (pyLower symptoms) = true) :
    (analyze_symptoms a env symptoms age gender language).record.urgency_level
        = some "emergency" ∧
    (analyze_symptoms a env symptoms age gender language).record.ai_generated
        = some false ∧
    (analyze_symptoms a env symptoms age gender language).probeCalled = false ∧
    (analyze_symptoms a env symptoms age gender language).generateCalled = false := by
  obtain ⟨p, hpmem, hpin⟩ := h
  have hne : pyStrip symptoms ≠ "" :=
    pyStrip_ne_empty_of_pyIn (emergencies_have_nonspace p hpmem) hpin
  have hem : check_absolute_emergency symptoms = true :=
    List.any_eq_true.mpr ⟨p, hpmem, hpin⟩
  simp [analyze_symptoms, hne, hem, updateWithMetadata, create_emergency_override]

/-- Witness for C1 at a concrete input containing "unconscious". -/
theorem c1_witness :
    (analyze_symptoms ⟨"gpt-oss:20b"⟩
        ⟨.ok ["gpt-oss:20b"], .ok (some "ok"), "2026-01-01 00:00:00"⟩
        "He is UNCONSCIOUS and fell" "44" "m" "en").record.urgency_level
      = some "emergency" ∧
    (analyze_symptoms ⟨"gpt-oss:20b"⟩
        ⟨.ok ["gpt-oss:20b"], .ok (some "ok"), "2026-01-01 00:00:00"⟩
        "He is UNCONSCIOUS and fell" "44" "m" "en").record.ai_generated
      = some false ∧
    (analyze_symptoms ⟨"gpt-oss:20b"⟩
        ⟨.ok ["gpt-oss:20b"], .ok (some "ok"), "2026-01-01 00:00:00"⟩
        "He is UNCONSCIOUS and fell" "44" "m" "en").probeCalled = false ∧
    (analyze_symptoms ⟨"gpt-oss:20b"⟩
        ⟨.ok ["gpt-oss:20b"], .ok (some "ok"), "2026-01-01 00:00:00"⟩
        "He is UNCONSCIOUS and fell" "44" "m" "en").generateCalled = false :=
  c1_emergency_override_bypasses_backend _ _ _ _ _ _
    ⟨"unconscious", by decide, by decide⟩

/-- C2 counterexample: on blank input `analyze_symptoms` cannot produce a full
AI-backed assessment, yet the returned record carries no `urgency_level` at
all (hence not `"urgent"`) and no recommendation — only an error message. -/
theorem c2_counterexample_blank_input :
    (analyze_symptoms ⟨"gpt-oss:20b"⟩ ⟨.ok ["gpt-oss:20b"], .ok (some "ok"), "t"⟩
        "   " "" "" "en").record.urgency_level = none ∧
    (analyze_symptoms ⟨"gpt-oss:20b"⟩ ⟨.ok ["gpt-oss:20b"], .ok (some "ok"), "t"⟩
        "   " "" "" "en").record.immediate_recommendations = none ∧
    (analyze_symptoms ⟨"gpt-oss:20b"⟩ ⟨.ok ["gpt-oss:20b"], .ok (some "ok"), "t"⟩
        "   " "" "" "en").record.error
      = some "Please describe your symptoms to receive medical guidance." := by
  decide

/-- C2 (amended): on every non-blank, non-emergency input whose analysis fails
(backend not ready, or the generation call produced error text), the record has
`urgency_level = "urgent"` — never `"routine"` — and a recommendation string;
blank input instead yields a record with only an error message. -/
theorem c2_failure_paths_urgent_with_recommendation
    (a : MedicalAnalyzer) (env : AnalyzeEnv) (symptoms age gender language : String)
    (h1 : pyStrip symptoms ≠ "")
    (h2 : check_absolute_emergency symptoms = false)
    (h3 : (check_model_status a env.tags).status ≠ "ready" ∨
      (pyIn "Error" (query_llm_for_analysis env.gen
          (create_comprehensive_prompt symptoms age gender language)) ||
        pyIn "timed out" (query_llm_for_analysis env.gen
          (create_comprehensive_prompt symptoms age gender language))) = true) :
    (analyze_symptoms a env symptoms age gender language).record.urgency_level
        = some "urgent" ∧
    ((analyze_symptoms a env symptoms age gender language).record.immediate_recommendations).isSome
        = true := by
  rcases h3 with h3 | h3
  · simp [analyze_symptoms, h1, h2, h3]
  · by_cases hs : (check_model_status a env.tags).status = "ready"
    · have hcond : (pyIn "Error" (query_llm_for_analysis env.gen
          (create_comprehensive_prompt symptoms age gender
            (if language ∈ supported_language_codes then language else "en"))) ||
        pyIn "timed out" (query_llm_for_analysis env.gen
          (create_comprehensive_prompt symptoms age gender
            (if language ∈ supported_language_codes then language else "en")))) = true := by
        rw [query_llm_prompt_irrel env.gen _
          (create_comprehensive_prompt symptoms age gender language)]
        exact h3
      rw [Bool.or_eq_true] at hcond
      rcases hcond with hc | hc <;>
        simp [analyze_symptoms, h1, h2, hs, hc]
    · simp [analyze_symptoms, h1, h2, hs]

/-- Witness for C2 (amended) at a concrete input with the backend down. -/
theorem c2_witness :
    (analyze_symptoms ⟨"gpt-oss:20b"⟩ ⟨.httpStatus 500, .ok (some "ok"), "t"⟩
        "mild cough since monday" "" "" "en").record.urgency_level = some "urgent" ∧
    ((analyze_symptoms ⟨"gpt-oss:20b"⟩ ⟨.httpStatus 500, .ok (some "ok"), "t"⟩
        "mild cough since monday" "" "" "en").record.immediate_recommendations).isSome
      = true :=
  c2_failure_paths_urgent_with_recommendation _ _ _ _ _ _
    (by decide) (by decide) (Or.inl (by decide))

/-- C9: for every non-blank, non-emergency input, when the availability probe
reports any status other than `"ready"`, `analyze_symptoms` returns an error
record with `urgency_level = "urgent"` and never consults the generation
endpoint. -/
theorem c9_backend_unavailable_urgent_no_generation
    (a : MedicalAnalyzer) (env : AnalyzeEnv) (symptoms age gender language : String)
    (h1 : pyStrip symptoms ≠ "")
    (h2 : check_absolute_emergency symptoms = false)
    (h3 : (check_model_status a env.tags).status ≠ "ready") :
    ((analyze_symptoms a env symptoms age gender language).record.error).isSome = true ∧
    (analyze_symptoms a env symptoms age gender language).record.urgency_level
        = some "urgent" ∧
    (analyze_symptoms a env symptoms age gender language).generateCalled = false := by
  simp [analyze_symptoms, h1, h2, h3]

/-- Witness for C9 at a concrete input with the probe raising. -/
theorem c9_witness :
    ((analyze_symptoms ⟨"gpt-oss:20b"⟩ ⟨.exn, .ok (some "ok"), "t"⟩
        "sore throat" "" "" "en").record.error).isSome = true ∧
    (analyze_symptoms ⟨"gpt-oss:20b"⟩ ⟨.exn, .ok (some "ok"), "t"⟩
        "sore throat" "" "" "en").record.urgency_level = some "urgent" ∧
    (analyze_symptoms ⟨"gpt-oss:20b"⟩ ⟨.exn, .ok (some "ok"), "t"⟩
        "sore throat" "" "" "en").generateCalled = false :=
  c9_backend_unavailable_urgent_no_generation _ _ _ _ _ _
    (by decide) (by decide) (by decide)

/-- C10: on the generation path, `analyze_symptoms` decides success versus
failure of the model call purely by substring inspection of the returned text:
exactly when the text contains `"Error"` or `"timed out"` it returns an error
record with `urgency_level = "urgent"` and the text as `technical_details`;
otherwise the text is parsed (the record carries the parse result, with no
`technical_details`). In particular an HTTP-200 response whose text happens to
contain `"Error"` is treated as a failed call. -/
theorem c10_model_call_error_by_substring
    (a : MedicalAnalyzer) (env : AnalyzeEnv) (symptoms age gender language : String)
    (h1 : pyStrip symptoms ≠ "")
    (h2 : check_absolute_emergency symptoms = false)
    (h3 : (check_model_status a env.tags).status = "ready") :
    ((pyIn "Error" (query_llm_for_analysis env.gen
          (create_comprehensive_prompt symptoms age gender language)) ||
        pyIn "timed out" (query_llm_for_analysis env.gen
          (create_comprehensive_prompt symptoms age gender language))) = true →
      (analyze_symptoms a env symptoms age gender language).record.error
          = some "Unable to complete medical analysis" ∧
      (analyze_symptoms a env symptoms age gender language).record.technical_details
          = some (query_llm_for_analysis env.gen
              (create_comprehensive_prompt symptoms age gender language)) ∧
      (analyze_symptoms a env symptoms age gender language).record.urgency_level
          = some "urgent" ∧
      (analyze_symptoms a env symptoms age gender language).record.full_llm_response
          = none) ∧
    ((pyIn "Error" (query_llm_for_analysis env.gen
          (create_comprehensive_prompt symptoms age gender language)) ||
        pyIn "timed out" (query_llm_for_analysis env.gen
          (create_comprehensive_prompt symptoms age gender language))) = false →
      (analyze_symptoms a env symptoms age gender language).record.error = none ∧
      (analyze_symptoms a env symptoms age gender language).record.technical_details
          = none ∧
      (analyze_symptoms a env symptoms age gender language).record.full_llm_response
          = some (query_llm_for_analysis env.gen
              (create_comprehensive_prompt symptoms age gender language)) ∧
      (analyze_symptoms a env symptoms age gender language).record.urgency_level
          = (parse_llm_analysis (query_llm_for_analysis env.gen
              (create_comprehensive_prompt symptoms age gender language))).urgency_level) := by
  have hq : query_llm_for_analysis env.gen
      (create_comprehensive_prompt symptoms age gender
        (if language ∈ supported_language_codes then language else "en"))
      = query_llm_for_analysis env.gen
          (create_comprehensive_prompt symptoms age gender language) :=
    query_llm_prompt_irrel env.gen _ _
  constructor
  · intro hcond
    rw [Bool.or_eq_true] at hcond
    rcases hcond with hc | hc <;>
      simp [analyze_symptoms, h1, h2, h3, hq, hc]
  · intro hcond
    have hcE : pyIn "Error" (query_llm_for_analysis env.gen
        (create_comprehensive_prompt symptoms age gender language)) = false := by
      cases hE : pyIn "Error" (query_llm_for_analysis env.gen
          (create_comprehensive_prompt symptoms age gender language)) with
      | false => rfl
      | true => rw [hE] at hcond; simp at hcond
    have hcT : pyIn "timed out" (query_llm_for_analysis env.gen
        (create_comprehensive_prompt symptoms age gender language)) = false := by
      rw [hcE] at hcond
      simpa using hcond
    simp [analyze_symptoms, h1, h2, h3, hq, hcE, hcT, updateWithMetadata,
      parse_llm_analysis]

/-- Witness for C10: an HTTP-200 generation response whose text contains
`"Error"` is routed to the error record. -/
theorem c10_witness :
    (analyze_symptoms ⟨"gpt-oss:20b"⟩
        ⟨.ok ["gpt-oss:20b"], .ok (some "All good, no Error though"), "t"⟩
        "sneezing fits" "" "" "en").record.error
      = some "Unable to complete medical analysis" ∧
    (analyze_symptoms ⟨"gpt-oss:20b"⟩
        ⟨.ok ["gpt-oss:20b"], .ok (some "All good, no Error though"), "t"⟩
        "sneezing fits" "" "" "en").record.technical_details
      = some (query_llm_for_analysis (.ok (some "All good, no Error though"))
          (create_comprehensive_prompt "sneezing fits" "" "" "en")) ∧
    (analyze_symptoms ⟨"gpt-oss:20b"⟩
        ⟨.ok ["gpt-oss:20b"], .ok (some "All good, no Error though"), "t"⟩
        "sneezing fits" "" "" "en").record.urgency_level = some "urgent" ∧
    (analyze_symptoms ⟨"gpt-oss:20b"⟩
        ⟨.ok ["gpt-oss:20b"], .ok (some "All good, no Error though"), "t"⟩
        "sneezing fits" "" "" "en").record.full_llm_response = none :=
  (c10_model_call_error_by_substring ⟨"gpt-oss:20b"⟩
      ⟨.ok ["gpt-oss:20b"], .ok (some "All good, no Error though"), "t"⟩
      "sneezing fits" "" "" "en"
      (by decide) (by decide) (by decide)).1 (by decide)

/-- C3 counterexample: a response whose differential section lists six
well-formed numbered items yields six entries — the numbered-item parse is not
truncated to five. -/
theorem c3_counterexample_six_entries :
    ((parse_llm_analysis
        "### DIFFERENTIAL DIAGNOSIS\n1. **A** - a\n2. **B** - b\n3. **C** - c\n4. **D** - d\n5. **E** - e\n6. **F** - f").differential_diagnosis.getD []).length
      = 6 ∧
    ¬ ((parse_llm_analysis
        "### DIFFERENTIAL DIAGNOSIS\n1. **A** - a\n2. **B** - b\n3. **C** - c\n4. **D** - d\n5. **E** - e\n6. **F** - f").differential_diagnosis.getD []).length
      ≤ 5 := by
  decide

/-- C3 (amended): the differential-diagnosis list of `parse_llm_analysis` is
truncated to at most five entries only on the fallback path (when the
numbered-item pattern finds no match); when the pattern matches, the list has
one entry per match and can exceed five. -/
theorem c3_diag_length_bound (resp : String) :
    (findallDiag (diffContent resp) = [] →
      ((parse_llm_analysis resp).differential_diagnosis.getD []).length ≤ 5) ∧
    (findallDiag (diffContent resp) ≠ [] →
      ((parse_llm_analysis resp).differential_diagnosis.getD []).length
        = (findallDiag (diffContent resp)).length) := by
  cases hs : extractSection "### DIFFERENTIAL DIAGNOSIS" resp.data with
  | none =>
    constructor
    · intro _
      simp [parse_llm_analysis, hs]
    · intro hne
      exfalso
      exact hne (by simp [diffContent, hs, findallDiag, findallDiagAux])
  | some cap =>
    have hdc : diffContent resp = pyStripL cap := by
      simp [diffContent, hs]
    constructor
    · intro h0
      rw [hdc] at h0
      simp [parse_llm_analysis, hs, parseDifferential, h0, List.length_take]
    · intro hne
      rw [hdc] at hne
      cases hms : findallDiag (pyStripL cap) with
      | nil => exact absurd hms hne
      | cons d ds =>
        simp [parse_llm_analysis, hs, parseDifferential, hms, hdc]

/-- Witness for C3 (amended) at a response whose section has no numbered
item. -/
theorem c3_witness :
    ((parse_llm_analysis
        "### DIFFERENTIAL DIAGNOSIS\nno structured list today").differential_diagnosis.getD []).length
      ≤ 5 :=
  (c3_diag_length_bound "### DIFFERENTIAL DIAGNOSIS\nno structured list today").1
    (by decide)

/-- C4 counterexample: a raw response containing the quoted string but not the
`### ` heading prefix does not match the section pattern, so the urgency text
stays empty and the level resolves to `"routine"`, not `"semi-urgent"`. -/
theorem c4_counterexample_routine_without_heading :
    (parse_llm_analysis "URGENCY ASSESSMENT\nThis is a semi-urgent case").urgency_level
      = some "routine" ∧
    (parse_llm_analysis "URGENCY ASSESSMENT\nThis is a semi-urgent case").urgency_level
      ≠ some "semi-urgent" := by
  decide

/-- C4 (amended): for the response `"### URGENCY ASSESSMENT\nThis is a
semi-urgent case"` — the quoted text with the full section heading —
`parse_llm_analysis` resolves the urgency level to `"semi-urgent"`, not
`"urgent"`. -/
theorem c4_semi_urgent_with_heading :
    (parse_llm_analysis "### URGENCY ASSESSMENT\nThis is a semi-urgent case").urgency_level
      = some "semi-urgent" ∧
    (parse_llm_analysis "### URGENCY ASSESSMENT\nThis is a semi-urgent case").urgency_level
      ≠ some "urgent" := by
  decide

/-- C5: the urgency classification follows the ordered precedence on the
lower-cased extracted text: `"emergency"` wins; else `"urgent"` without
`"semi"` gives urgent; else `"semi-urgent"` gives semi-urgent; else routine. -/
theorem c5_urgency_precedence (ua : String) :
    (pyIn "emergency" (pyLower ua) = true → classifyUrgency ua = "emergency") ∧
    (pyIn "emergency" (pyLower ua) = false →
      pyIn "urgent" (pyLower ua) = true → pyIn "semi" (pyLower ua) = false →
      classifyUrgency ua = "urgent") ∧
    (pyIn "emergency" (pyLower ua) = false →
      (pyIn "urgent" (pyLower ua) = false ∨ pyIn "semi" (pyLower ua) = true) →
      pyIn "semi-urgent" (pyLower ua) = true →
      classifyUrgency ua = "semi-urgent") ∧
    (pyIn "emergency" (pyLower ua) = false →
      (pyIn "urgent" (pyLower ua) = false ∨ pyIn "semi" (pyLower ua) = true) →
      pyIn "semi-urgent" (pyLower ua) = false →
      classifyUrgency ua = "routine") := by
  refine ⟨?_, ?_, ?_, ?_⟩
  · intro h1
    simp [classifyUrgency, h1]
  · intro h1 h2 h3
    simp [classifyUrgency, h1, h2, h3]
  · intro h1 h2 h3
    rcases h2 with h2 | h2 <;> simp [classifyUrgency, h1, h2, h3]
  · intro h1 h2 h3
    rcases h2 with h2 | h2 <;> simp [classifyUrgency, h1, h2, h3]

/-- Witness for C5: the second precedence branch at a concrete text. -/
theorem c5_witness : classifyUrgency "Needs URGENT care now" = "urgent" :=
  (c5_urgency_precedence "Needs URGENT care now").2.1
    (by decide) (by decide) (by decide)

/-- C6: the two-item differential section parses to the two entries in
order. -/
theorem c6_two_item_differential :
    (parse_llm_analysis
        "### DIFFERENTIAL DIAGNOSIS\n1. **Flu** - common viral infection\n2. **Cold** - mild viral infection").differential_diagnosis
      = some [DiagEntry.mk "Flu" "common viral infection",
              DiagEntry.mk "Cold" "mild viral infection"] := by
  decide

/-- Spec-side description of the fallback parse (C7): every line of the section
text that is non-empty after stripping and contains the emphasis markup or has
a leading digit, truncated to at most five entries, the stripped line as the
condition and an empty rationale. -/
def fallbackSpec (content : List Char) : List DiagEntry :=
  (((splitNl content).filter fallbackKeep).take 5).map
    fun line => DiagEntry.mk ⟨pyStripL line⟩ ""

/-- C7: whenever the numbered-item pattern yields zero matches on the section
text, the differential-diagnosis parse equals the line-based fallback. -/
theorem c7_fallback_on_zero_matches (content : List Char)
    (h : findallDiag content = []) :
    parseDifferential content = fallbackSpec content := by
  simp only [parseDifferential, h, List.map_nil, List.isEmpty_nil, if_pos]
  rw [fallbackSpec, ← List.map_take, List.map_map]
  rfl

/-- Witness for C7 at a section text without numbered items. -/
theorem c7_witness :
    parseDifferential "**Migraine** possible\nplain remark\n3 day fever".toList
      = fallbackSpec "**Migraine** possible\nplain remark\n3 day fever".toList :=
  c7_fallback_on_zero_matches _ (by decide)

/-- C8: the record the parse-failure handler of `parse_llm_analysis` returns
carries the raw response text, an error marker, and
`urgency_level = "urgent"`, never `"routine"`. -/
theorem c8_parse_failure_minimal_record (llm_response : String) :
    (parse_error_record llm_response).full_llm_response = some llm_response ∧
    ((parse_error_record llm_response).error).isSome = true ∧
    (parse_error_record llm_response).urgency_level = some "urgent" ∧
    (parse_error_record llm_response).urgency_level ≠ some "routine" := by
  refine ⟨rfl, rfl, rfl, ?_⟩
  simp [parse_error_record]

